import Mathlib

/-!
Verification of the client-side resilience layer of the gpt-load dashboard UI:
the error-classification / retry composable (`useErrorHandling`) and the
scheduling primitives (`usePerformance`: loading-state aggregator and
trailing-edge debounce).

The TypeScript code is shallowly embedded:
* a caught failure value (`any` in TS) becomes `Option ErrObj`, where `none`
  is a null/undefined (falsy) failure and `ErrObj` records exactly the fields
  the classifier inspects (`code`, `message`, `name`, `status`,
  `response.status`, `response.data.message`);
* the host environment's `navigator.onLine` flag becomes the `Env` structure;
* the i18n lookup `i18n.t` becomes an explicit parameter `tr : String → String`
  (the source's `tt` wrapper is embedded as `tt`);
* the reactive `errorState` object becomes the `ErrorState` structure threaded
  explicitly through the operations (the `timestamp : Date` field is omitted:
  no claim mentions it and wall-clock time has no shallow embedding);
* the async retry loop `withRetry` becomes a structurally recursive function
  over the per-attempt outcomes `fn : Nat → Outcome T`; `Math.random()`
  samples are supplied as an explicit stream `rand : Nat → ℚ` (the sample
  drawn before the wait that follows failed attempt `i` is `rand i`);
* emitted user-visible notifications (`message.error`) are collected in a
  `List String` output.
-/

namespace GPTLoad

/-- The five values of `ErrorState["type"]` in `useErrorHandling`
(`"network" | "data" | "permission" | "server" | "unknown"`). -/
inductive ErrKind where
  | network
  | data
  | permission
  | server
  | unknown
deriving DecidableEq, Repr

/-- The fields of a caught failure value that `useErrorHandling` inspects.
`responseStatus` models `error.response?.status` (`none` when `error.response`
is missing or has no `status`); `respDataMessage` models
`error.response?.data?.message`. Statuses are JS numbers, embedded as `Int`. -/
structure ErrObj where
  code : Option String := none
  message : Option String := none
  name : Option String := none
  status : Option Int := none
  responseStatus : Option Int := none
  respDataMessage : Option String := none
deriving DecidableEq, Repr

/-- Host environment observed by the classifier: `navigator.onLine`. -/
structure Env where
  navigatorOnLine : Bool
deriving DecidableEq, Repr

/-- An online host environment (the common case). -/
def onlineEnv : Env := ⟨true⟩

/-- Substring test: JS `String.prototype.includes`. -/
def strContains (s pat : String) : Bool :=
  decide (pat.toList <:+: s.toList)

/-- JS `/timeout/i.test m`: case-insensitive containment of "timeout"
(the message lowercased character-wise). -/
def matchesTimeout (m : String) : Bool :=
  decide ("timeout".toList <:+: m.toList.map Char.toLower)

/-- JS `a || b` on optional numbers: the left value when present and truthy
(nonzero), otherwise the right operand.  Used for
`error.response?.status || error.status`. -/
def jsOrNum (a b : Option Int) : Option Int :=
  match a with
  | some n => if n = 0 then b else some n
  | none => b

/-- The effective HTTP-like status a failure carries:
`error.response?.status || error.status`. -/
def effStatus (e : ErrObj) : Option Int :=
  jsOrNum e.responseStatus e.status

/-- `effStatus` lifted to possibly-null failures. -/
def effStatusO : Option ErrObj → Option Int
  | none => none
  | some e => effStatus e

/-- `isNetworkError` from `useErrorHandling`: network error codes, a timeout
message, a fetch abort, connectivity-style messages, or the host offline. -/
def isNetworkError (env : Env) : Option ErrObj → Bool
  | none => false
  | some e =>
      e.code == some "NETWORK_ERROR" ||
      e.code == some "ERR_NETWORK" ||
      e.code == some "ECONNABORTED" ||
      matchesTimeout (e.message.getD "") ||
      e.name == some "AbortError" ||
      (match e.message with
       | some m => strContains m "Network Error" || strContains m "Failed to fetch" ||
           strContains m "fetch"
       | none => false) ||
      !env.navigatorOnLine

/-- `isPermissionError`: effective status 401 or 403. -/
def isPermissionError : Option ErrObj → Bool
  | none => false
  | some e => effStatus e == some 401 || effStatus e == some 403

/-- `isDataError`: effective status in [400,500) excluding 401 and 403.
A missing status fails every JS comparison, hence `false`. -/
def isDataError : Option ErrObj → Bool
  | none => false
  | some e =>
      match effStatus e with
      | some s => decide (400 ≤ s ∧ s < 500 ∧ s ≠ 401 ∧ s ≠ 403)
      | none => false

/-- `isServerError`: effective status ≥ 500. -/
def isServerError : Option ErrObj → Bool
  | none => false
  | some e =>
      match effStatus e with
      | some s => decide (500 ≤ s)
      | none => false

/-- The error-kind inference performed by `handleError`: the if/else-if chain
testing `isNetworkError`, `isPermissionError`, `isDataError`, `isServerError`
in that order, defaulting to `unknown`. -/
def classify (env : Env) (e : Option ErrObj) : ErrKind :=
  if isNetworkError env e then .network
  else if isPermissionError e then .permission
  else if isDataError e then .data
  else if isServerError e then .server
  else .unknown

/-- The reactive `errorState` record (sans the unmodelled `timestamp`). -/
structure ErrorState where
  hasError : Bool
  message : String
  type : ErrKind
  retryCount : Nat
deriving DecidableEq, Repr

/-- The initial `errorState` created by `useErrorHandling`. -/
def initialErrorState : ErrorState :=
  { hasError := false, message := "", type := .unknown, retryCount := 0 }

/-- `setError(error, type)` restricted to the string-message case (the
`Error`-object case stores `error.message`, observationally the same string):
marks the state errored and overwrites message and type, keeping
`retryCount`. -/
def setError (msg : String) (ty : ErrKind) (st : ErrorState) : ErrorState :=
  { st with hasError := true, message := msg, type := ty }

/-- `clearError()`: resets every field to its initial value. -/
def clearError (_st : ErrorState) : ErrorState :=
  initialErrorState

/-- `incrementRetry()`: bumps `retryCount` and touches nothing else. -/
def incrementRetry (st : ErrorState) : ErrorState :=
  { st with retryCount := st.retryCount + 1 }

/-- The `tt` helper of `useErrorHandling`: look up `key` through the i18n
translator `tr`; use the result when it is truthy and differs from the key,
otherwise the hardcoded fallback. -/
def tt (tr : String → String) (key fb : String) : String :=
  let s := tr key
  if s ≠ "" ∧ s ≠ key then s else fb

/-- JS `a || b` on an optional string against a string default: the left
value when present and truthy (nonempty), otherwise the right operand. Used
for `error.response?.data?.message || tt(...)`. -/
def jsOrStr (a : Option String) (b : String) : String :=
  match a with
  | some s => if s = "" then b else s
  | none => b

/-- `error.response?.data?.message` of a possibly-null failure. -/
def respDataMessage : Option ErrObj → Option String
  | none => none
  | some e => e.respDataMessage

/-- The options record accepted by `handleError`; `none` for
`fallbackMessage` means the caller did not supply one, so the localized
generic message is used. -/
structure HandleOptions where
  showMessage : Bool := true
  retryable : Bool := false
  fallbackMessage : Option String := none

/-- The user-facing message chosen by `handleError`'s if/else-if chain: the
same branch order as `classify`, with the data branch preferring a truthy
server-supplied `response.data.message` and the final branch falling back to
the caller's (or generic) fallback message. -/
def userMessageFor (tr : String → String) (env : Env) (e : Option ErrObj)
    (fallbackMessage : String) : String :=
  if isNetworkError env e then tt tr "error.network" "网络连接失败，请检查网络连接"
  else if isPermissionError e then tt tr "error.permission" "权限不足或登录已过期"
  else if isDataError e then jsOrStr (respDataMessage e) (tt tr "error.data" "数据请求失败")
  else if isServerError e then tt tr "error.server" "服务异常，请稍后重试"
  else fallbackMessage

/-- The per-kind localized message, independent of the failure value; the
data entry is the generic localized data message (used when no truthy
server-supplied message exists). -/
def kindMessage (tr : String → String) (fallbackMessage : String) : ErrKind → String
  | .network => tt tr "error.network" "网络连接失败，请检查网络连接"
  | .permission => tt tr "error.permission" "权限不足或登录已过期"
  | .data => tt tr "error.data" "数据请求失败"
  | .server => tt tr "error.server" "服务异常，请稍后重试"
  | .unknown => fallbackMessage

/-- The record returned by `handleError`. -/
structure HandleResult where
  type : ErrKind
  message : String
  retryable : Bool
deriving DecidableEq, Repr

/-- `handleError(error, options)`: classifies the failure, picks the user
message, stores both via `setError`, and (when `showMessage`) emits the
message as a notification.  Returns the result record, the updated state and
the emitted notifications.  (`logError`/`console.error` is unmodelled
output.) -/
def handleError (tr : String → String) (env : Env) (e : Option ErrObj)
    (opts : HandleOptions) (st : ErrorState) :
    HandleResult × ErrorState × List String :=
  let fallbackMessage := opts.fallbackMessage.getD (tt tr "error.generic" "操作失败，请稍后重试")
  let errorType := classify env e
  let userMessage := userMessageFor tr env e fallbackMessage
  let st' := setError userMessage errorType st
  (⟨errorType, userMessage, opts.retryable⟩, st',
    if opts.showMessage then [userMessage] else [])

/-- Outcome of one attempt of the wrapped async operation: resolve with a
value or reject with a failure value. -/
inductive Outcome (T : Type) where
  | ok (v : T)
  | err (e : Option ErrObj)
deriving DecidableEq, Repr

/-- The `options` record of `withRetry` (defaults as in the source). -/
structure RetryOptions where
  shouldRetry : Option ErrObj → Bool
  factor : ℚ := 2
  jitter : Bool := true

/-- The default `withRetry` options: retry only network errors, factor 2,
jitter on. -/
def defaultRetryOptions (env : Env) : RetryOptions :=
  { shouldRetry := fun e => isNetworkError env e }

/-- The backoff wait computed before the retry that follows failed attempt
`i` (0-indexed): `base = retryDelay * factor ^ i`, scaled by
`0.5 + r * 0.5` when jitter is enabled, where `r` is the `Math.random()`
sample. -/
def computeWait (retryDelay factor : ℚ) (jitter : Bool) (r : ℚ) (i : Nat) : ℚ :=
  let base := retryDelay * factor ^ i
  if jitter then base * (1/2 + r * (1/2)) else base

/-- Everything observable about one `withRetry` call: the settled result
(value or rejection with the last failure), the final `errorState`, how many
times the operation was invoked, the backoff waits inserted (in order), and
the notifications emitted. -/
structure RetryRun (T : Type) where
  result : Except (Option ErrObj) T
  state : ErrorState
  invocations : Nat
  waits : List ℚ
  notifications : List String
deriving Repr

/-- The loop body of `withRetry` for attempts `i, i+1, ...` with `remaining =
maxRetries - i` attempts still allowed after attempt `i`.  On success the
state is cleared and the value returned; on failure with attempts remaining
and `shouldRetry` accepting, the retry count is bumped, the backoff wait
recorded and the loop continues; otherwise the loop breaks and `handleError`
runs on the last failure with `retryable = maxRetries > 0`. -/
def withRetryGo (tr : String → String) (env : Env) {T : Type}
    (fn : Nat → Outcome T) (maxRetries : Nat) (retryDelay : ℚ)
    (opts : RetryOptions) (rand : Nat → ℚ) :
    Nat → Nat → ErrorState → List ℚ → RetryRun T
  | i, remaining, st, waits =>
    match fn i with
    | .ok v => ⟨.ok v, clearError st, i + 1, waits, []⟩
    | .err e =>
      let finish : RetryRun T :=
        let h := handleError tr env e
          { showMessage := true, retryable := decide (0 < maxRetries), fallbackMessage := none } st
        ⟨.error e, h.2.1, i + 1, waits, h.2.2⟩
      match remaining with
      | 0 => finish
      | r + 1 =>
        if opts.shouldRetry e then
          withRetryGo tr env fn maxRetries retryDelay opts rand (i + 1) r
            (incrementRetry st)
            (waits ++ [computeWait retryDelay opts.factor opts.jitter (rand i) i])
        else finish

/-- `withRetry(fn, maxRetries, retryDelay, options)` from state `st0`: resets
`retryCount` to 0 and runs attempts `0 ..= maxRetries`. -/
def withRetry (tr : String → String) (env : Env) {T : Type}
    (fn : Nat → Outcome T) (maxRetries : Nat) (retryDelay : ℚ)
    (opts : RetryOptions) (rand : Nat → ℚ) (st0 : ErrorState) : RetryRun T :=
  withRetryGo tr env fn maxRetries retryDelay opts rand 0 maxRetries
    { st0 with retryCount := 0 } []

/-- `safeAsync(fn, fallback)`: on success clear the state and return the
value with no notification; on failure run `handleError` with
`showMessage: false` and return the fallback.  Never rejects: it is a total
function into `T × ErrorState × List String`. -/
def safeAsync (tr : String → String) (env : Env) {T : Type}
    (res : Outcome T) (fallback : T) (st : ErrorState) :
    T × ErrorState × List String :=
  match res with
  | .ok v => (v, clearError st, [])
  | .err e =>
    let h := handleError tr env e
      { showMessage := false, retryable := false, fallbackMessage := none } st
    (fallback, h.2.1, h.2.2)

/-! ### Loading-state aggregator (`useLoadingState` in `usePerformance`) -/

/-- The two refs of `useLoadingState`.  `loadingCount` is a JS number,
embedded as `Int` so that the `Math.max(0, ...)` clamp is represented
faithfully rather than by `Nat` saturation. -/
structure LoadingState where
  isLoading : Bool
  loadingCount : Int
deriving DecidableEq, Repr

/-- Initial refs: `isLoading = false`, `loadingCount = 0`. -/
def initialLoadingState : LoadingState :=
  { isLoading := false, loadingCount := 0 }

/-- `startLoading()`: increment the count and force `isLoading` true. -/
def startLoading (s : LoadingState) : LoadingState :=
  { isLoading := true, loadingCount := s.loadingCount + 1 }

/-- `stopLoading()`: decrement with a floor of 0; drop `isLoading` only when
the count reaches 0. -/
def stopLoading (s : LoadingState) : LoadingState :=
  let c := max 0 (s.loadingCount - 1)
  { isLoading := if c = 0 then false else s.isLoading, loadingCount := c }

/-- `resetLoading()`: force both refs back to initial. -/
def resetLoading (_s : LoadingState) : LoadingState :=
  { isLoading := false, loadingCount := 0 }

/-- One call to the aggregator's public interface. -/
inductive LoadOp where
  | start
  | stop
  | reset
deriving DecidableEq, Repr

/-- Apply one aggregator call. -/
def applyLoadOp (s : LoadingState) : LoadOp → LoadingState
  | .start => startLoading s
  | .stop => stopLoading s
  | .reset => resetLoading s

/-- Run a sequence of aggregator calls from a state. -/
def runLoadOps (s : LoadingState) (ops : List LoadOp) : LoadingState :=
  ops.foldl applyLoadOp s

/-! ### Trailing-edge debounce (`debounce` / `debouncedWatch`)

The timer machinery (`setTimeout` / `clearTimeout` with the single
`timeoutId` variable) is embedded as a discrete-event model: the
registration's state is the optional pending timer, holding its fire time and
the captured arguments.  A call at time `now` first lets a timer whose fire
time has already passed deliver (that delivery happened before the call on
the real event loop), then cancels whatever is still pending and arms a fresh
timer at `now + delay` with the new arguments — exactly the
`clearTimeout`-then-`setTimeout` body of `debouncedFn`.  Because a single
variable holds the timer, at most one timer is ever pending. -/

/-- Per-registration debounce state: the optional pending timer (fire time,
captured call arguments). -/
structure DebState (A : Type) where
  pending : Option (Nat × A)
deriving DecidableEq, Repr

/-- Fresh registration: no pending timer (`timeoutId = null`). -/
def debInit {A : Type} : DebState A :=
  ⟨none⟩

/-- Deliveries that occur strictly before an observation at time `now`: the
pending timer fires iff its fire time has been reached, after which
`timeoutId` is null again. -/
def dueFirings {A : Type} (st : DebState A) (now : Nat) : List (Nat × A) × DebState A :=
  match st.pending with
  | some p => if p.1 ≤ now then ([p], ⟨none⟩) else ([], st)
  | none => ([], st)

/-- One call of the debounced function at time `now` with arguments `a`:
already-due deliveries happen first, then the still-pending timer (if any) is
cancelled and a new one armed at `now + d`. -/
def scheduleCall {A : Type} (d : Nat) (st : DebState A) (now : Nat) (a : A) :
    List (Nat × A) × DebState A :=
  let fired := (dueFirings st now).1
  (fired, ⟨some (now + d, a)⟩)

/-- Process a time-ordered list of calls, collecting deliveries. -/
def runCalls {A : Type} (d : Nat) : DebState A → List (Nat × A) → List (Nat × A) × DebState A
  | st, [] => ([], st)
  | st, (t, a) :: rest =>
    ((scheduleCall d st t a).1 ++ (runCalls d (scheduleCall d st t a).2 rest).1,
     (runCalls d (scheduleCall d st t a).2 rest).2)

/-- After the last call, let any remaining timer fire (time passes beyond
every fire time). -/
def flushAll {A : Type} (st : DebState A) : List (Nat × A) :=
  match st.pending with
  | some p => [p]
  | none => []

/-- All deliveries produced by a burst of calls on one fresh registration,
once time has run past the last timer. -/
def debounceRun {A : Type} (d : Nat) (calls : List (Nat × A)) : List (Nat × A) :=
  (runCalls d debInit calls).1 ++ flushAll (runCalls d debInit calls).2

/-- The burst condition of claim C8: each call in the list arrives strictly
within the delay window opened by the previous call. -/
def withinWindow {A : Type} (d : Nat) : List (Nat × A) → Bool
  | p :: q :: rest => decide (q.1 < p.1 + d) && withinWindow d (q :: rest)
  | _ => true


/-! ### Definitions used to state and witness the claims -/

/-- The classification exactly as claim C1 words it: status rules first
(401/403 → permission, ≥ 500 → server, [400,500) minus 401/403 → data), then
the network-signal rule, otherwise unknown — asserted by the claim to hold
"for every input, including failures that carry both a qualifying status and
a network-layer signal". -/
def claimClassify (env : Env) (e : Option ErrObj) : ErrKind :=
  match effStatusO e with
  | some s =>
    if s = 401 ∨ s = 403 then .permission
    else if 500 ≤ s then .server
    else if 400 ≤ s ∧ s < 500 then .data
    else if isNetworkError env e then .network
    else .unknown
  | none => if isNetworkError env e then .network else .unknown

/-- The amended classification: first match wins in the order Network,
Permission, Server, Data (the status ranges are disjoint, so Server/Data
order is immaterial), Unknown — a network-layer signal takes precedence over
any qualifying status. -/
def specClassifyNetFirst (env : Env) (e : Option ErrObj) : ErrKind :=
  if isNetworkError env e then .network
  else
    match effStatusO e with
    | some s =>
      if s = 401 ∨ s = 403 then .permission
      else if 500 ≤ s then .server
      else if 400 ≤ s ∧ s < 500 then .data
      else .unknown
    | none => .unknown

/-- A failure carrying both a qualifying status (401) and a network-layer
signal (a fetch `AbortError`). -/
def c1err : ErrObj := { status := some 401, name := some "AbortError" }

/-- A pure network failure: a fetch `AbortError` with no status. -/
def abortErr : ErrObj := { name := some "AbortError" }

/-- A plain Data failure: HTTP 400, no network signal. -/
def dataErr400 : ErrObj := { status := some 400 }

/-- A Data failure (HTTP 404) carrying a truthy server-supplied
`response.data.message`. -/
def dataMsgErr : ErrObj := { status := some 404, respDataMessage := some "key not found" }

/-- An operation that rejects with a network failure on every attempt. -/
def alwaysAbort : Nat → Outcome Nat :=
  fun _ => Outcome.err (some abortErr)

/-- An operation that rejects with a Data failure on every attempt. -/
def alwaysData400 : Nat → Outcome Nat :=
  fun _ => Outcome.err (some dataErr400)

/-- An operation whose first attempt rejects with a Data failure and whose
later attempts would succeed with 42. -/
def failThenOk42 : Nat → Outcome Nat :=
  fun i => if i = 0 then Outcome.err (some dataErr400) else Outcome.ok 42

/-- An operation that rejects with a network failure on attempts 0 and 1 and
succeeds with 7 from attempt 2 on. -/
def twoFailsThenOk : Nat → Outcome Nat :=
  fun j => if j < 2 then Outcome.err (some abortErr) else Outcome.ok 7

/-- The C7 invariant: the count is nonnegative and the flag shows exactly
"count positive". -/
def loadInvariant (s : LoadingState) : Prop :=
  0 ≤ s.loadingCount ∧ (s.isLoading = true ↔ 0 < s.loadingCount)

/-- Error states reachable from the initial state through the full public
interface of `useErrorHandling` (each operation taken as one atomic step). -/
inductive ErrReachable : ErrorState → Prop where
  | init : ErrReachable initialErrorState
  | set (msg : String) (ty : ErrKind) {st : ErrorState} :
      ErrReachable st → ErrReachable (setError msg ty st)
  | clear {st : ErrorState} : ErrReachable st → ErrReachable (clearError st)
  | increment {st : ErrorState} : ErrReachable st → ErrReachable (incrementRetry st)
  | handle (tr : String → String) (env : Env) (e : Option ErrObj) (opts : HandleOptions)
      {st : ErrorState} : ErrReachable st → ErrReachable (handleError tr env e opts st).2.1
  | retry {T : Type} (tr : String → String) (env : Env) (fn : Nat → Outcome T)
      (mr : Nat) (rd : ℚ) (opts : RetryOptions) (rand : Nat → ℚ) {st : ErrorState} :
      ErrReachable st → ErrReachable (withRetry tr env fn mr rd opts rand st).state
  | safe {T : Type} (tr : String → String) (env : Env) (res : Outcome T) (fb : T)
      {st : ErrorState} : ErrReachable st → ErrReachable (safeAsync tr env res fb st).2.1

/-- Error states reachable through the public interface with bare
`incrementRetry` excluded (the amendment claim C6 forces). -/
inductive ErrReachableNoInc : ErrorState → Prop where
  | init : ErrReachableNoInc initialErrorState
  | set (msg : String) (ty : ErrKind) {st : ErrorState} :
      ErrReachableNoInc st → ErrReachableNoInc (setError msg ty st)
  | clear {st : ErrorState} : ErrReachableNoInc st → ErrReachableNoInc (clearError st)
  | handle (tr : String → String) (env : Env) (e : Option ErrObj) (opts : HandleOptions)
      {st : ErrorState} : ErrReachableNoInc st → ErrReachableNoInc (handleError tr env e opts st).2.1
  | retry {T : Type} (tr : String → String) (env : Env) (fn : Nat → Outcome T)
      (mr : Nat) (rd : ℚ) (opts : RetryOptions) (rand : Nat → ℚ) {st : ErrorState} :
      ErrReachableNoInc st → ErrReachableNoInc (withRetry tr env fn mr rd opts rand st).state
  | safe {T : Type} (tr : String → String) (env : Env) (res : Outcome T) (fb : T)
      {st : ErrorState} : ErrReachableNoInc st → ErrReachableNoInc (safeAsync tr env res fb st).2.1

/-! ### Shared lemmas -/

/-- A failure is classified `network` exactly when `isNetworkError` holds
(the network test is the first branch of the chain). -/
lemma classify_eq_network_iff (env : Env) (e : Option ErrObj) :
    classify env e = ErrKind.network ↔ isNetworkError env e = true := by
  unfold classify
  split_ifs with h1 h2 h3 h4 <;> simp_all

/-- Unfolding `withRetryGo` on a successful attempt. -/
lemma withRetryGo_ok {T : Type} {tr : String → String} {env : Env}
    {fn : Nat → Outcome T} {mr : Nat} {rd : ℚ} {opts : RetryOptions} {rand : Nat → ℚ}
    {i remaining : Nat} {st : ErrorState} {waits : List ℚ} {v : T}
    (h : fn i = .ok v) :
    withRetryGo tr env fn mr rd opts rand i remaining st waits =
      ⟨.ok v, clearError st, i + 1, waits, []⟩ := by
  rw [withRetryGo, h]

/-- Unfolding `withRetryGo` on a failure at the last allowed attempt. -/
lemma withRetryGo_err_zero {T : Type} {tr : String → String} {env : Env}
    {fn : Nat → Outcome T} {mr : Nat} {rd : ℚ} {opts : RetryOptions} {rand : Nat → ℚ}
    {i : Nat} {st : ErrorState} {waits : List ℚ} {e : Option ErrObj}
    (h : fn i = .err e) :
    withRetryGo tr env fn mr rd opts rand i 0 st waits =
      ⟨.error e,
       (handleError tr env e
         { showMessage := true, retryable := decide (0 < mr), fallbackMessage := none } st).2.1,
       i + 1, waits,
       (handleError tr env e
         { showMessage := true, retryable := decide (0 < mr), fallbackMessage := none } st).2.2⟩ := by
  rw [withRetryGo, h]

/-- Unfolding `withRetryGo` on a retryable failure with attempts left. -/
lemma withRetryGo_err_retry {T : Type} {tr : String → String} {env : Env}
    {fn : Nat → Outcome T} {mr : Nat} {rd : ℚ} {opts : RetryOptions} {rand : Nat → ℚ}
    {i r : Nat} {st : ErrorState} {waits : List ℚ} {e : Option ErrObj}
    (h : fn i = .err e) (hs : opts.shouldRetry e = true) :
    withRetryGo tr env fn mr rd opts rand i (r + 1) st waits =
      withRetryGo tr env fn mr rd opts rand (i + 1) r (incrementRetry st)
        (waits ++ [computeWait rd opts.factor opts.jitter (rand i) i]) := by
  rw [withRetryGo, h]
  simp [hs]

/-- Unfolding `withRetryGo` on a failure refused by `shouldRetry`. -/
lemma withRetryGo_err_stop {T : Type} {tr : String → String} {env : Env}
    {fn : Nat → Outcome T} {mr : Nat} {rd : ℚ} {opts : RetryOptions} {rand : Nat → ℚ}
    {i r : Nat} {st : ErrorState} {waits : List ℚ} {e : Option ErrObj}
    (h : fn i = .err e) (hs : opts.shouldRetry e = false) :
    withRetryGo tr env fn mr rd opts rand i (r + 1) st waits =
      ⟨.error e,
       (handleError tr env e
         { showMessage := true, retryable := decide (0 < mr), fallbackMessage := none } st).2.1,
       i + 1, waits,
       (handleError tr env e
         { showMessage := true, retryable := decide (0 < mr), fallbackMessage := none } st).2.2⟩ := by
  rw [withRetryGo, h]
  simp [hs]

/-- The loop always settles in a state that is either fully cleared or
marked errored. -/
lemma withRetryGo_state_cases {T : Type} (tr : String → String) (env : Env)
    (fn : Nat → Outcome T) (mr : Nat) (rd : ℚ) (opts : RetryOptions) (rand : Nat → ℚ) :
    ∀ (remaining i : Nat) (st : ErrorState) (waits : List ℚ),
      (withRetryGo tr env fn mr rd opts rand i remaining st waits).state = initialErrorState ∨
      (withRetryGo tr env fn mr rd opts rand i remaining st waits).state.hasError = true := by
  intro remaining
  induction remaining with
  | zero =>
    intro i st waits
    cases h : fn i with
    | ok v => rw [withRetryGo_ok h]; exact Or.inl rfl
    | err e => rw [withRetryGo_err_zero h]; exact Or.inr (by simp [handleError, setError])
  | succ r ih =>
    intro i st waits
    cases h : fn i with
    | ok v => rw [withRetryGo_ok h]; exact Or.inl rfl
    | err e =>
      cases hs : opts.shouldRetry e with
      | true => rw [withRetryGo_err_retry h hs]; exact ih (i + 1) _ _
      | false => rw [withRetryGo_err_stop h hs]; exact Or.inr (by simp [handleError, setError])

/-- If the first `k` attempts from `i` fail retryably and attempt `i + k`
succeeds, the loop returns that value, clears the state, and counts
`i + k + 1` invocations. -/
lemma withRetryGo_success_after_retryable {T : Type} (tr : String → String) (env : Env)
    (fn : Nat → Outcome T) (mr : Nat) (rd : ℚ) (opts : RetryOptions) (rand : Nat → ℚ) :
    ∀ (k i remaining : Nat) (st : ErrorState) (waits : List ℚ) (v : T),
      k ≤ remaining →
      (∀ j, j < k → ∃ e, fn (i + j) = Outcome.err e ∧ opts.shouldRetry e = true) →
      fn (i + k) = .ok v →
      (withRetryGo tr env fn mr rd opts rand i remaining st waits).result = .ok v ∧
      (withRetryGo tr env fn mr rd opts rand i remaining st waits).state = initialErrorState ∧
      (withRetryGo tr env fn mr rd opts rand i remaining st waits).invocations = i + k + 1 := by
  intro k
  induction k with
  | zero =>
    intro i remaining st waits v _hk _hprev hok
    rw [withRetryGo_ok (show fn i = .ok v by simpa using hok)]
    exact ⟨rfl, rfl, by simp⟩
  | succ k ih =>
    intro i remaining st waits v hk hprev hok
    obtain ⟨e, he, hse⟩ := hprev 0 (Nat.succ_pos k)
    cases remaining with
    | zero => omega
    | succ r =>
      rw [withRetryGo_err_retry (show fn i = .err e by simpa using he) hse]
      have step := ih (i + 1) r (incrementRetry st)
        (waits ++ [computeWait rd opts.factor opts.jitter (rand i) i]) v
        (by omega)
        (fun j hj => by
          obtain ⟨e', he', hse'⟩ := hprev (j + 1) (by omega)
          exact ⟨e', by rw [show i + 1 + j = i + (j + 1) by omega]; exact he', hse'⟩)
        (by rw [show i + 1 + k = i + (k + 1) by omega]; exact hok)
      refine ⟨step.1, step.2.1, ?_⟩
      rw [step.2.2]
      omega

/-- When every attempt fails retryably, the loop records exactly one backoff
wait per allowed retry, the wait after failed attempt `j` being
`computeWait rd factor jitter (rand j) j`. -/
lemma withRetryGo_waits_allfail {T : Type} (tr : String → String) (env : Env)
    (fn : Nat → Outcome T) (mr : Nat) (rd : ℚ) (opts : RetryOptions) (rand : Nat → ℚ)
    (errs : Nat → Option ErrObj)
    (hfail : ∀ j, fn j = .err (errs j))
    (hsr : ∀ j, opts.shouldRetry (errs j) = true) :
    ∀ (remaining i : Nat) (st : ErrorState) (waits : List ℚ),
      (withRetryGo tr env fn mr rd opts rand i remaining st waits).waits =
        waits ++ (List.range remaining).map
          (fun k => computeWait rd opts.factor opts.jitter (rand (i + k)) (i + k)) := by
  intro remaining
  induction remaining with
  | zero =>
    intro i st waits
    rw [withRetryGo_err_zero (hfail i)]
    simp
  | succ r ih =>
    intro i st waits
    rw [withRetryGo_err_retry (hfail i) (hsr i)]
    rw [ih (i + 1)]
    have hfun : (fun k => computeWait rd opts.factor opts.jitter (rand (i + 1 + k)) (i + 1 + k)) =
        fun k => computeWait rd opts.factor opts.jitter (rand (i + (k + 1))) (i + (k + 1)) := by
      funext k
      rw [show i + 1 + k = i + (k + 1) by omega]
    rw [hfun]
    simp [List.range_succ_eq_map, List.map_map, Function.comp_def, List.append_assoc]

/-- On a Data-classified failure the chosen user message is the JS
disjunction of the server-supplied `response.data.message` and the localized
generic data message. -/
lemma userMessageFor_data (tr : String → String) (env : Env) (e : Option ErrObj) (fb : String)
    (h : classify env e = ErrKind.data) :
    userMessageFor tr env e fb = jsOrStr (respDataMessage e) (tt tr "error.data" "数据请求失败") := by
  unfold classify at h
  unfold userMessageFor
  split_ifs at h ⊢
  all_goals simp_all

/-- On every non-Data classification the chosen user message is the per-kind
message, which does not read the failure's `response.data.message`. -/
lemma userMessageFor_eq_kindMessage (tr : String → String) (env : Env) (e : Option ErrObj)
    (fb : String) (h : classify env e ≠ ErrKind.data) :
    userMessageFor tr env e fb = kindMessage tr fb (classify env e) := by
  unfold classify at h ⊢
  unfold userMessageFor kindMessage
  split_ifs at h ⊢
  all_goals first | rfl | exact absurd rfl h

/-- Every aggregator call preserves the C7 invariant. -/
lemma applyLoadOp_invariant (s : LoadingState) (h : loadInvariant s) (op : LoadOp) :
    loadInvariant (applyLoadOp s op) := by
  obtain ⟨h0, h1⟩ := h
  cases op with
  | start =>
    refine ⟨by simp [applyLoadOp, startLoading]; omega, ?_⟩
    simp [applyLoadOp, startLoading]
    omega
  | stop =>
    simp only [applyLoadOp, stopLoading, loadInvariant]
    by_cases hc : max 0 (s.loadingCount - 1) = 0
    · rw [if_pos hc, hc]
      simp
    · rw [if_neg hc]
      have hl : s.isLoading = true := h1.2 (by omega)
      refine ⟨by omega, ?_⟩
      rw [hl]
      simp only [true_iff]
      omega
  | reset =>
    exact ⟨le_refl 0, by simp [applyLoadOp, resetLoading]⟩

/-- Any call sequence preserves the C7 invariant. -/
lemma runLoadOps_invariant (s : LoadingState) (h : loadInvariant s) (ops : List LoadOp) :
    loadInvariant (runLoadOps s ops) := by
  induction ops generalizing s with
  | nil => exact h
  | cons op rest ih => exact ih (applyLoadOp s op) (applyLoadOp_invariant s h op)

/-- The armed-timer component of a call. -/
lemma scheduleCall_snd {A : Type} (d : Nat) (st : DebState A) (t : Nat) (a : A) :
    (scheduleCall d st t a).2 = ⟨some (t + d, a)⟩ := rfl

/-- A burst of calls each arriving before the previous timer fires produces
no delivery during the burst and leaves exactly the last call's timer
pending. -/
lemma runCalls_burst {A : Type} (d : Nat) :
    ∀ (calls : List (Nat × A)) (t : Nat) (a : A),
      calls.getLast? = some (t, a) →
      withinWindow d calls = true →
      ∀ st : DebState A,
        (∀ ft b, st.pending = some (ft, b) → ∀ u c, calls.head? = some (u, c) → u < ft) →
        runCalls d st calls = ([], ⟨some (t + d, a)⟩) := by
  intro calls
  induction calls with
  | nil => intro t a hlast _ _ _; simp at hlast
  | cons p rest ih =>
    intro t a hlast hwin st hst
    obtain ⟨u, c⟩ := p
    have hfire : (scheduleCall d st u c).1 = [] := by
      unfold scheduleCall dueFirings
      cases hp : st.pending with
      | none => rfl
      | some q =>
        obtain ⟨ft, b⟩ := q
        have := hst ft b hp u c rfl
        simp [Nat.not_le.2 this]
    cases rest with
    | nil =>
      simp only [List.getLast?_singleton, Option.some.injEq, Prod.mk.injEq] at hlast
      obtain ⟨ht, ha⟩ := hlast
      subst ht; subst ha
      unfold runCalls
      rw [hfire, scheduleCall_snd]
      rfl
    | cons q rest' =>
      obtain ⟨u2, c2⟩ := q
      have hlast' : ((u2, c2) :: rest').getLast? = some (t, a) := by
        rw [← hlast]
        exact (List.getLast?_cons_cons ..).symm
      have hwin' : withinWindow d ((u2, c2) :: rest') = true := by
        have hw : withinWindow d ((u, c) :: (u2, c2) :: rest') =
            (decide (u2 < u + d) && withinWindow d ((u2, c2) :: rest')) := rfl
        rw [hw, Bool.and_eq_true] at hwin
        exact hwin.2
      have hrel : u2 < u + d := by
        have hw : withinWindow d ((u, c) :: (u2, c2) :: rest') =
            (decide (u2 < u + d) && withinWindow d ((u2, c2) :: rest')) := rfl
        rw [hw, Bool.and_eq_true, decide_eq_true_eq] at hwin
        exact hwin.1
      have hnext := ih t a hlast' hwin' ⟨some (u + d, c)⟩
        (fun ft b hp u' c' hh => by
          have hp' : some (u + d, c) = some (ft, b) := hp
          have hh' : some (u2, c2) = some (u', c') := hh
          have h1 := congrArg Prod.fst (Option.some.inj hp')
          have h2 := congrArg Prod.fst (Option.some.inj hh')
          simp only at h1 h2
          omega)
      unfold runCalls
      rw [hfire, scheduleCall_snd, hnext]
      rfl

/-! ### Claim theorems -/

/-- C1, counterexample: a failure with effective status 401 that also carries
a network-layer signal (`AbortError`) is classified `network` by
`handleError`'s chain, not `permission` as the claim's status-first reading
requires; so the claimed classification fails on inputs carrying both a
qualifying status and a network-layer signal. -/
theorem c1_status_first_counterexample :
    effStatusO (some c1err) = some 401 ∧
    isNetworkError onlineEnv (some c1err) = true ∧
    claimClassify onlineEnv (some c1err) = ErrKind.permission ∧
    classify onlineEnv (some c1err) = ErrKind.network ∧
    classify onlineEnv (some c1err) ≠ claimClassify onlineEnv (some c1err) := by
  decide

/-- C1, amended: for every environment and failure value, the kind inferred
by `handleError` equals the first-match-wins classification that tests the
network-layer signal first and only then the status rules (401/403 →
permission, ≥ 500 → server, [400,500) minus 401/403 → data, otherwise
unknown). -/
theorem c1_classify_network_first (env : Env) (e : Option ErrObj) :
    classify env e = specClassifyNetFirst env e := by
  cases e with
  | none => rfl
  | some eo =>
    unfold classify specClassifyNetFirst isPermissionError isDataError isServerError effStatusO
    by_cases hn : isNetworkError env (some eo)
    · simp [hn]
    · simp only [hn, if_false, Bool.false_eq_true]
      have key : ∀ x : Option Int,
          (if x == some 401 || x == some 403 then ErrKind.permission
           else if (match x with
             | some s => decide (400 ≤ s ∧ s < 500 ∧ s ≠ 401 ∧ s ≠ 403)
             | none => false) then ErrKind.data
           else if (match x with
             | some s => decide (500 ≤ s)
             | none => false) then ErrKind.server
           else ErrKind.unknown) =
          (match x with
           | some s =>
             if s = 401 ∨ s = 403 then ErrKind.permission
             else if 500 ≤ s then ErrKind.server
             else if 400 ≤ s ∧ s < 500 then ErrKind.data
             else ErrKind.unknown
           | none => ErrKind.unknown) := by
        intro x
        cases x with
        | none => simp
        | some s =>
          simp only [Option.some.injEq, Bool.or_eq_true, beq_iff_eq, decide_eq_true_eq]
          split_ifs <;> first | rfl | omega
      exact key (effStatus eo)

/-- C2: when every attempt rejects with a network-classified failure,
`withRetry(op, 2, 100)` under the default policy invokes the operation
exactly 3 times, settles with `retryCount = 2`, rejects with the failure of
the third attempt, and leaves `errorState` errored with kind network. -/
theorem c2_always_network_failure (tr : String → String) (env : Env) {T : Type}
    (fn : Nat → Outcome T) (errs : Nat → Option ErrObj) (rand : Nat → ℚ) (st0 : ErrorState)
    (hfail : ∀ i, fn i = .err (errs i))
    (hnet : ∀ i, classify env (errs i) = .network) :
    (withRetry tr env fn 2 100 (defaultRetryOptions env) rand st0).invocations = 3 ∧
    (withRetry tr env fn 2 100 (defaultRetryOptions env) rand st0).state.retryCount = 2 ∧
    (withRetry tr env fn 2 100 (defaultRetryOptions env) rand st0).result = .error (errs 2) ∧
    (withRetry tr env fn 2 100 (defaultRetryOptions env) rand st0).state.hasError = true ∧
    (withRetry tr env fn 2 100 (defaultRetryOptions env) rand st0).state.type = .network := by
  have hsr : ∀ i, (defaultRetryOptions env).shouldRetry (errs i) = true := fun i =>
    (classify_eq_network_iff env (errs i)).1 (hnet i)
  unfold withRetry
  rw [withRetryGo_err_retry (hfail 0) (hsr 0), withRetryGo_err_retry (hfail 1) (hsr 1),
    withRetryGo_err_zero (hfail 2)]
  refine ⟨rfl, ?_, rfl, rfl, ?_⟩
  · simp [handleError, setError, incrementRetry]
  · simp [handleError, setError, hnet 2]

/-- Witness for C2 at a concrete always-aborting operation. -/
theorem c2_always_network_failure_witness :
    (withRetry id onlineEnv alwaysAbort 2 100 (defaultRetryOptions onlineEnv) (fun _ => 0)
      initialErrorState).invocations = 3 ∧
    (withRetry id onlineEnv alwaysAbort 2 100 (defaultRetryOptions onlineEnv) (fun _ => 0)
      initialErrorState).state.retryCount = 2 ∧
    (withRetry id onlineEnv alwaysAbort 2 100 (defaultRetryOptions onlineEnv) (fun _ => 0)
      initialErrorState).result = .error (some abortErr) ∧
    (withRetry id onlineEnv alwaysAbort 2 100 (defaultRetryOptions onlineEnv) (fun _ => 0)
      initialErrorState).state.hasError = true ∧
    (withRetry id onlineEnv alwaysAbort 2 100 (defaultRetryOptions onlineEnv) (fun _ => 0)
      initialErrorState).state.type = .network :=
  c2_always_network_failure id onlineEnv alwaysAbort (fun _ => some abortErr) (fun _ => 0)
    initialErrorState (fun _ => rfl)
    (fun _ => (by decide : classify onlineEnv (some abortErr) = ErrKind.network))

/-- C3: when the first failure is refused by `shouldRetry`, `withRetry`
performs exactly one invocation with no backoff wait, leaves `retryCount` at
0, records the classified kind, and rejects with that failure; and with
`maxRetries = 0` a failing first attempt likewise yields one invocation, no
wait, and an immediate classification. -/
theorem c3_short_circuit (tr : String → String) (env : Env) {T : Type}
    (fn : Nat → Outcome T) (e0 : Option ErrObj) (opts : RetryOptions) (rand : Nat → ℚ)
    (st0 : ErrorState) (rd : ℚ)
    (hf : fn 0 = .err e0) :
    (∀ mr, opts.shouldRetry e0 = false →
      (withRetry tr env fn mr rd opts rand st0).invocations = 1 ∧
      (withRetry tr env fn mr rd opts rand st0).waits = [] ∧
      (withRetry tr env fn mr rd opts rand st0).state.retryCount = 0 ∧
      (withRetry tr env fn mr rd opts rand st0).state.type = classify env e0 ∧
      (withRetry tr env fn mr rd opts rand st0).result = .error e0) ∧
    ((withRetry tr env fn 0 rd opts rand st0).invocations = 1 ∧
     (withRetry tr env fn 0 rd opts rand st0).waits = [] ∧
     (withRetry tr env fn 0 rd opts rand st0).state.hasError = true ∧
     (withRetry tr env fn 0 rd opts rand st0).state.type = classify env e0 ∧
     (withRetry tr env fn 0 rd opts rand st0).result = .error e0) := by
  constructor
  · intro mr hs
    unfold withRetry
    cases mr with
    | zero =>
      rw [withRetryGo_err_zero hf]
      exact ⟨rfl, rfl, by simp [handleError, setError], by simp [handleError, setError], rfl⟩
    | succ r =>
      rw [withRetryGo_err_stop hf hs]
      exact ⟨rfl, rfl, by simp [handleError, setError], by simp [handleError, setError], rfl⟩
  · unfold withRetry
    rw [withRetryGo_err_zero hf]
    exact ⟨rfl, rfl, by simp [handleError, setError], by simp [handleError, setError], rfl⟩

/-- Witness for C3 at a concrete Data failure under the default policy. -/
theorem c3_short_circuit_witness :
    ((withRetry id onlineEnv alwaysData400 2 100 (defaultRetryOptions onlineEnv) (fun _ => 0)
        initialErrorState).invocations = 1 ∧
     (withRetry id onlineEnv alwaysData400 2 100 (defaultRetryOptions onlineEnv) (fun _ => 0)
        initialErrorState).waits = [] ∧
     (withRetry id onlineEnv alwaysData400 2 100 (defaultRetryOptions onlineEnv) (fun _ => 0)
        initialErrorState).state.retryCount = 0 ∧
     (withRetry id onlineEnv alwaysData400 2 100 (defaultRetryOptions onlineEnv) (fun _ => 0)
        initialErrorState).state.type = classify onlineEnv (some dataErr400) ∧
     (withRetry id onlineEnv alwaysData400 2 100 (defaultRetryOptions onlineEnv) (fun _ => 0)
        initialErrorState).result = .error (some dataErr400)) ∧
    ((withRetry id onlineEnv alwaysData400 0 100 (defaultRetryOptions onlineEnv) (fun _ => 0)
        initialErrorState).invocations = 1 ∧
     (withRetry id onlineEnv alwaysData400 0 100 (defaultRetryOptions onlineEnv) (fun _ => 0)
        initialErrorState).waits = [] ∧
     (withRetry id onlineEnv alwaysData400 0 100 (defaultRetryOptions onlineEnv) (fun _ => 0)
        initialErrorState).state.hasError = true ∧
     (withRetry id onlineEnv alwaysData400 0 100 (defaultRetryOptions onlineEnv) (fun _ => 0)
        initialErrorState).state.type = classify onlineEnv (some dataErr400) ∧
     (withRetry id onlineEnv alwaysData400 0 100 (defaultRetryOptions onlineEnv) (fun _ => 0)
        initialErrorState).result = .error (some dataErr400)) ∧
    classify onlineEnv (some dataErr400) = ErrKind.data :=
  ⟨(c3_short_circuit id onlineEnv alwaysData400 (some dataErr400)
      (defaultRetryOptions onlineEnv) (fun _ => 0) initialErrorState 100 rfl).1 2 (by decide),
   (c3_short_circuit id onlineEnv alwaysData400 (some dataErr400)
      (defaultRetryOptions onlineEnv) (fun _ => 0) initialErrorState 100 rfl).2,
   by decide⟩

/-- C4, counterexample: under the default policy an operation whose attempt 1
would succeed with 42 (within `maxRetries = 3`) still makes `withRetry`
reject, because the attempt-0 Data failure is refused by `shouldRetry`; the
claim's "if some attempt `i ≤ maxRetries` succeeds with `v`, `withRetry`
returns `v` with a clear state" is therefore false as a universal statement. -/
theorem c4_some_attempt_succeeds_counterexample :
    failThenOk42 1 = Outcome.ok 42 ∧
    (withRetry id onlineEnv failThenOk42 3 50 (defaultRetryOptions onlineEnv) (fun _ => 0)
      initialErrorState).result = Except.error (some dataErr400) ∧
    Except.error (some dataErr400) ≠ (Except.ok 42 : Except (Option ErrObj) Nat) ∧
    (withRetry id onlineEnv failThenOk42 3 50 (defaultRetryOptions onlineEnv) (fun _ => 0)
      initialErrorState).state.hasError = true := by
  refine ⟨rfl, rfl, fun h => Except.noConfusion h, rfl⟩

/-- C4, amended: for every operation and policy, if every attempt before `i`
fails with a failure the policy retries and attempt `i ≤ maxRetries` succeeds
with `v`, then `withRetry` returns `v`, leaves `errorState` fully clear
(hasError false, message empty, retryCount 0, kind unknown) regardless of the
starting state, and makes exactly `i + 1` invocations. -/
theorem c4_success_clears (tr : String → String) (env : Env) {T : Type}
    (fn : Nat → Outcome T) (mr : Nat) (rd : ℚ) (opts : RetryOptions) (rand : Nat → ℚ)
    (st0 : ErrorState) (i : Nat) (v : T)
    (hi : i ≤ mr) (hok : fn i = .ok v)
    (hprev : ∀ j, j < i → ∃ e, fn j = Outcome.err e ∧ opts.shouldRetry e = true) :
    (withRetry tr env fn mr rd opts rand st0).result = .ok v ∧
    (withRetry tr env fn mr rd opts rand st0).state = initialErrorState ∧
    (withRetry tr env fn mr rd opts rand st0).invocations = i + 1 := by
  unfold withRetry
  have main := withRetryGo_success_after_retryable tr env fn mr rd opts rand i 0 mr
    { st0 with retryCount := 0 } [] v hi
    (fun j hj => by simpa using hprev j hj)
    (by simpa using hok)
  simpa using main

/-- Witness for C4 (amended) at the claim's concrete scenario: two retryable
failures then success under `withRetry(op, 3, 50)`. -/
theorem c4_success_clears_witness :
    (withRetry id onlineEnv twoFailsThenOk 3 50 (defaultRetryOptions onlineEnv) (fun _ => 0)
      initialErrorState).result = Except.ok 7 ∧
    (withRetry id onlineEnv twoFailsThenOk 3 50 (defaultRetryOptions onlineEnv) (fun _ => 0)
      initialErrorState).state = initialErrorState ∧
    (withRetry id onlineEnv twoFailsThenOk 3 50 (defaultRetryOptions onlineEnv) (fun _ => 0)
      initialErrorState).invocations = 3 :=
  c4_success_clears id onlineEnv twoFailsThenOk 3 50 (defaultRetryOptions onlineEnv)
    (fun _ => 0) initialErrorState 2 7 (by decide) rfl
    (fun j hj => ⟨some abortErr, by
      have hcase : j = 0 ∨ j = 1 := by omega
      rcases hcase with h | h <;> subst h <;>
        exact ⟨rfl, (by decide : (defaultRetryOptions onlineEnv).shouldRetry (some abortErr) = true)⟩⟩)

/-- C5: the backoff wait after failed attempt `i` equals
`retryDelay * factor ^ i` exactly when jitter is off; with jitter on it lies
in `[1/2, 1] * retryDelay * factor ^ i` for every possible `Math.random()`
sample; and in a `withRetry` run whose attempts all fail retryably the
recorded wait after attempt `k` is exactly `computeWait` at index `k`. -/
theorem c5_backoff (rd f : ℚ) (hrd : 0 ≤ rd) (hf : 0 ≤ f) :
    (∀ (r : ℚ) (i : Nat), computeWait rd f false r i = rd * f ^ i) ∧
    (∀ (r : ℚ) (i : Nat), 0 ≤ r → r < 1 →
      (1/2) * (rd * f ^ i) ≤ computeWait rd f true r i ∧
      computeWait rd f true r i ≤ 1 * (rd * f ^ i)) ∧
    (∀ {T : Type} (tr : String → String) (env : Env) (fn : Nat → Outcome T)
        (errs : Nat → Option ErrObj) (opts : RetryOptions) (rand : Nat → ℚ)
        (mr : Nat) (st0 : ErrorState),
      (∀ j, fn j = .err (errs j)) → (∀ j, opts.shouldRetry (errs j) = true) →
      (withRetry tr env fn mr rd opts rand st0).waits =
        (List.range mr).map (fun k => computeWait rd opts.factor opts.jitter (rand k) k)) := by
  refine ⟨fun r i => rfl, fun r i hr0 hr1 => ?_, ?_⟩
  · have hb : 0 ≤ rd * f ^ i := mul_nonneg hrd (pow_nonneg hf i)
    unfold computeWait
    simp only [if_true, reduceIte]
    constructor
    · nlinarith [mul_nonneg hb hr0]
    · nlinarith [mul_nonneg hb (by linarith : (0:ℚ) ≤ 1 - r)]
  · intro T tr env fn errs opts rand mr st0 hfail hsr
    unfold withRetry
    rw [withRetryGo_waits_allfail tr env fn mr rd opts rand errs hfail hsr mr 0]
    simp

/-- Witness for C5 at `retryDelay = 100`, `factor = 2`, sample `1/2`,
attempt index 3, and a concrete two-retry run. -/
theorem c5_backoff_witness :
    computeWait 100 2 false (1/2) 3 = 100 * 2 ^ 3 ∧
    ((1/2) * (100 * 2 ^ 3) ≤ computeWait 100 2 true (1/2) 3 ∧
      computeWait 100 2 true (1/2) 3 ≤ 1 * (100 * 2 ^ 3)) ∧
    (withRetry id onlineEnv alwaysAbort 2 100 (defaultRetryOptions onlineEnv)
      (fun _ => (1/2 : ℚ)) initialErrorState).waits =
      (List.range 2).map (fun k => computeWait 100 2 true (1/2) k) :=
  ⟨(c5_backoff 100 2 (by decide) (by decide)).1 (1/2) 3,
   (c5_backoff 100 2 (by decide) (by decide)).2.1 (1/2) 3 one_half_pos.le one_half_lt_one,
   (c5_backoff 100 2 (by decide) (by decide)).2.2 id onlineEnv alwaysAbort
     (fun _ => some abortErr) (defaultRetryOptions onlineEnv) (fun _ => (1/2 : ℚ)) 2
     initialErrorState (fun _ => rfl)
     (fun _ => (by decide : (defaultRetryOptions onlineEnv).shouldRetry (some abortErr) = true))⟩

/-- C6, counterexample: `incrementRetry` is a public operation, and applying
it once to the initial clear state reaches a state with `hasError = false`
but `retryCount = 1`, so the claimed invariant fails over the full public
interface. -/
theorem c6_increment_counterexample :
    ErrReachable (incrementRetry initialErrorState) ∧
    (incrementRetry initialErrorState).hasError = false ∧
    ¬((incrementRetry initialErrorState).retryCount = 0 ∧
      (incrementRetry initialErrorState).type = ErrKind.unknown) := by
  refine ⟨ErrReachable.increment ErrReachable.init, rfl, ?_⟩
  intro h
  simp [incrementRetry, initialErrorState] at h

/-- C6, amended: in every state reachable from the initial clear state via
setError, clearError, handleError, withRetry and safeAsync (bare
incrementRetry excluded), `hasError = false` implies `retryCount = 0` and
kind unknown. -/
theorem c6_clear_invariant (st : ErrorState) (h : ErrReachableNoInc st)
    (hclear : st.hasError = false) :
    st.retryCount = 0 ∧ st.type = ErrKind.unknown := by
  induction h with
  | init => exact ⟨rfl, rfl⟩
  | set msg ty _ _ => simp [setError] at hclear
  | clear _ _ => exact ⟨rfl, rfl⟩
  | handle tr env e opts _ _ => simp [handleError, setError] at hclear
  | retry tr env fn mr rd opts rand h ih =>
    rcases withRetryGo_state_cases tr env fn mr rd opts rand mr 0 _ [] with hc | hc
    · unfold withRetry
      rw [hc]
      exact ⟨rfl, rfl⟩
    · unfold withRetry at hclear
      rw [hc] at hclear
      exact absurd hclear (by simp)
  | safe tr env res fb h ih =>
    cases res with
    | ok v => exact ⟨rfl, rfl⟩
    | err e => simp [safeAsync, handleError, setError] at hclear

/-- Witness for C6 (amended) at the initial state. -/
theorem c6_clear_invariant_witness :
    initialErrorState.retryCount = 0 ∧ initialErrorState.type = ErrKind.unknown :=
  c6_clear_invariant initialErrorState ErrReachableNoInc.init rfl

/-- C7: after every sequence of aggregator calls from the initial state the
count is nonnegative and `isLoading` equals "count positive"; in particular
start-start-stop leaves `isLoading` true, a second stop leaves it false, and
a further stray stop leaves it false without underflow. -/
theorem c7_loading_aggregator (ops : List LoadOp) :
    0 ≤ (runLoadOps initialLoadingState ops).loadingCount ∧
    ((runLoadOps initialLoadingState ops).isLoading = true ↔
      0 < (runLoadOps initialLoadingState ops).loadingCount) ∧
    (runLoadOps initialLoadingState [.start, .start, .stop]).isLoading = true ∧
    (runLoadOps initialLoadingState [.start, .start, .stop, .stop]).isLoading = false ∧
    (runLoadOps initialLoadingState
      [.start, .start, .stop, .stop, .stop]).isLoading = false := by
  have hinv := runLoadOps_invariant initialLoadingState
    ⟨le_refl 0, by simp [initialLoadingState]⟩ ops
  exact ⟨hinv.1, hinv.2, by decide, by decide, by decide⟩

/-- C8: for any burst of `n ≥ 1` debounced calls in which each call arrives
strictly within the delay window of the previous one, the underlying callback
is delivered exactly once, at the last call's time plus the delay and with
the last call's arguments only (earlier calls' timers are cancelled, only one
timer is ever pending). -/
theorem c8_debounce_burst {A : Type} (d : Nat) (calls : List (Nat × A)) (t : Nat) (a : A)
    (hlast : calls.getLast? = some (t, a))
    (hwin : withinWindow d calls = true) :
    debounceRun d calls = [(t + d, a)] := by
  unfold debounceRun
  rw [runCalls_burst d calls t a hlast hwin debInit
    (fun ft b hp => by simp [debInit] at hp)]
  rfl

/-- Witness for C8: three `schedule(cb, 100)` calls 10 ms apart deliver
exactly once, with the third call's payload. -/
theorem c8_debounce_burst_witness :
    debounceRun 100 [(0, 1), (10, 2), (20, 3)] = [(120, 3)] :=
  c8_debounce_burst 100 [(0, (1 : Nat)), (10, 2), (20, 3)] 20 3 (by decide) (by decide)

/-- C9: `safeAsync` never rejects: on success it clears `errorState` and
returns the operation's result with no notification; on failure it returns
the caller-supplied fallback, records the classified failure (hasError, kind
and message set), and emits no user-visible notification. -/
theorem c9_safe_async (tr : String → String) (env : Env) {T : Type}
    (res : Outcome T) (fb : T) (st : ErrorState) :
    (∀ v, res = .ok v → safeAsync tr env res fb st = (v, initialErrorState, [])) ∧
    (∀ e, res = .err e →
      (safeAsync tr env res fb st).1 = fb ∧
      (safeAsync tr env res fb st).2.1.hasError = true ∧
      (safeAsync tr env res fb st).2.1.type = classify env e ∧
      (safeAsync tr env res fb st).2.1.message =
        userMessageFor tr env e (tt tr "error.generic" "操作失败，请稍后重试") ∧
      (safeAsync tr env res fb st).2.2 = []) := by
  constructor
  · intro v hv
    subst hv
    rfl
  · intro e he
    subst he
    exact ⟨rfl, by simp [safeAsync, handleError, setError],
      by simp [safeAsync, handleError, setError],
      by simp [safeAsync, handleError, setError], rfl⟩

/-- Witness for C9 at a concrete success and a concrete Data failure. -/
theorem c9_safe_async_witness :
    safeAsync id onlineEnv (Outcome.ok (5 : Nat)) 0 initialErrorState =
      (5, initialErrorState, []) ∧
    ((safeAsync id onlineEnv (Outcome.err (some dataErr400) : Outcome Nat) 7
        initialErrorState).1 = 7 ∧
     (safeAsync id onlineEnv (Outcome.err (some dataErr400) : Outcome Nat) 7
        initialErrorState).2.1.hasError = true ∧
     (safeAsync id onlineEnv (Outcome.err (some dataErr400) : Outcome Nat) 7
        initialErrorState).2.1.type = classify onlineEnv (some dataErr400) ∧
     (safeAsync id onlineEnv (Outcome.err (some dataErr400) : Outcome Nat) 7
        initialErrorState).2.1.message =
        userMessageFor id onlineEnv (some dataErr400) (tt id "error.generic" "操作失败，请稍后重试") ∧
     (safeAsync id onlineEnv (Outcome.err (some dataErr400) : Outcome Nat) 7
        initialErrorState).2.2 = []) :=
  ⟨(c9_safe_async id onlineEnv (Outcome.ok 5) 0 initialErrorState).1 5 rfl,
   (c9_safe_async id onlineEnv (Outcome.err (some dataErr400)) 7 initialErrorState).2
     (some dataErr400) rfl⟩

/-- C10: when `handleError` classifies a failure as Data and the failure
carries a truthy `response.data.message`, the recorded message (and the
notification, when shown) is that server-supplied message; for every failure
classified Network, Permission, Server or Unknown the message is the per-kind
localized (or fallback) message, which ignores `response.data.message`. -/
theorem c10_data_message (tr : String → String) (env : Env) (st : ErrorState)
    (opts : HandleOptions) :
    (∀ (e : ErrObj) (m : String), classify env (some e) = .data →
      e.respDataMessage = some m → m ≠ "" →
      (handleError tr env (some e) opts st).2.1.message = m ∧
      (handleError tr env (some e) opts st).2.2 =
        (if opts.showMessage then [m] else [])) ∧
    (∀ (e : Option ErrObj), classify env e ≠ .data →
      (handleError tr env e opts st).2.1.message =
        kindMessage tr (opts.fallbackMessage.getD (tt tr "error.generic" "操作失败，请稍后重试"))
          (classify env e)) := by
  constructor
  · intro e m hd hm hm'
    have hmsg := userMessageFor_data tr env (some e)
      (opts.fallbackMessage.getD (tt tr "error.generic" "操作失败，请稍后重试")) hd
    rw [respDataMessage, hm] at hmsg
    have hval : userMessageFor tr env (some e)
        (opts.fallbackMessage.getD (tt tr "error.generic" "操作失败，请稍后重试")) = m := by
      rw [hmsg]
      simp [jsOrStr, hm']
    constructor
    · simp [handleError, setError, hval]
    · simp [handleError, hval]
  · intro e hd
    have hmsg := userMessageFor_eq_kindMessage tr env e
      (opts.fallbackMessage.getD (tt tr "error.generic" "操作失败，请稍后重试")) hd
    simp [handleError, setError, hmsg]

/-- Witness for C10 at a 404 failure with a server-supplied message and at a
network failure. -/
theorem c10_data_message_witness :
    ((handleError id onlineEnv (some dataMsgErr) {} initialErrorState).2.1.message =
        "key not found" ∧
     (handleError id onlineEnv (some dataMsgErr) {} initialErrorState).2.2 =
        (if ({} : HandleOptions).showMessage then ["key not found"] else [])) ∧
    (handleError id onlineEnv (some abortErr) {} initialErrorState).2.1.message =
      kindMessage id (({} : HandleOptions).fallbackMessage.getD
        (tt id "error.generic" "操作失败，请稍后重试")) (classify onlineEnv (some abortErr)) :=
  ⟨(c10_data_message id onlineEnv initialErrorState {}).1 dataMsgErr "key not found"
      (by decide) rfl (by decide),
   (c10_data_message id onlineEnv initialErrorState {}).2 (some abortErr) (by decide)⟩

end GPTLoad
